import Mathlib

/-
Verification development for the chronicle-weaver repository.

The embedding models the multi-provider AI orchestration layer:
the provider adapters and dispatch facade (aiService), the legacy
Gemini-only service (geminiService), the credential store, the
usage/cost accountant, and the session-persistence quota fallback.

Numbers are modelled exactly: token/image counts as Nat, monetary
rates as Rat. JavaScript values that may be `undefined` are modelled
as `Option`; JavaScript exceptions are modelled with `Except`.
-/

/-- The `AIProvider` string enum (referenced from types.ts but its
declaration is not among the provided sources; modelled from its use in
the adapters and tests: exactly the three members GEMINI, OPENAI, CLAUDE
with distinct string values). -/
inductive AIProvider
| GEMINI
| OPENAI
| CLAUDE
deriving DecidableEq, Repr

/-- The string value of an `AIProvider` enum member (TypeScript string
enums interpolate to their value; the exact literals are immaterial to
the claims, only their distinctness is used). -/
def AIProvider.value : AIProvider → String
| AIProvider.GEMINI => "GEMINI"
| AIProvider.OPENAI => "OPENAI"
| AIProvider.CLAUDE => "CLAUDE"

/-- `Object.values(AIProvider)`: the list of all enum members. -/
def AIProvider.allValues : List AIProvider :=
[AIProvider.GEMINI, AIProvider.OPENAI, AIProvider.CLAUDE]

/-- A provider argument at a call site. TypeScript's type system does not
stop callers from passing a string outside the enum (the repository's own
tests do exactly that), so the runtime argument is either a genuine enum
member or some other string, which reaches the `default` branch of every
`switch`. -/
inductive ProviderArg
| known (p : AIProvider)
| other (s : String)
deriving DecidableEq, Repr

/-- The `'flash' | 'pro' | 'standard'` model-type argument of
`calculateEstimatedCost` in aiService. -/
inductive ModelType
| flash
| pro
| standard
deriving DecidableEq, Repr

/-- One row of the PRICING table: cost per input token, per output token,
and per image. -/
structure Pricing where
  input : ℚ
  output : ℚ
  image : ℚ
deriving DecidableEq, Repr

/-- PRICING.GEMINI_FLASH from aiService. -/
def PRICING_GEMINI_FLASH : Pricing :=
{ input := 0.1 / 1000000, output := 0.4 / 1000000, image := 0.0008 }

/-- PRICING.GEMINI_PRO from aiService. -/
def PRICING_GEMINI_PRO : Pricing :=
{ input := 1.25 / 1000000, output := 5.0 / 1000000, image := 0.04 }

/-- PRICING.OPENAI_GPT4 from aiService. -/
def PRICING_OPENAI_GPT4 : Pricing :=
{ input := 10 / 1000000, output := 30 / 1000000, image := 0.04 }

/-- PRICING.OPENAI_GPT3_5 from aiService. -/
def PRICING_OPENAI_GPT3_5 : Pricing :=
{ input := 0.5 / 1000000, output := 1.5 / 1000000, image := 0.02 }

/-- PRICING.CLAUDE_HAIKU from aiService. -/
def PRICING_CLAUDE_HAIKU : Pricing :=
{ input := 0.25 / 1000000, output := 1.25 / 1000000, image := 0.03 }

/-- PRICING.CLAUDE_SONNET from aiService. -/
def PRICING_CLAUDE_SONNET : Pricing :=
{ input := 3 / 1000000, output := 15 / 1000000, image := 0.06 }

/-- `calculateEstimatedCost` from aiService (the provider-aware variant):
selects a pricing row by provider and model type (the `default` branch of
the switch selects GEMINI_FLASH), then returns
`inputTokens*input + outputTokens*output + images*image + premiumImages*image`. -/
def calculateEstimatedCost (inputTokens outputTokens images premiumImages : ℕ)
    (provider : ProviderArg) (modelType : ModelType) : ℚ :=
  let pricing : Pricing :=
    match provider with
    | ProviderArg.known AIProvider.GEMINI =>
        if modelType = ModelType.pro then PRICING_GEMINI_PRO else PRICING_GEMINI_FLASH
    | ProviderArg.known AIProvider.OPENAI =>
        if modelType = ModelType.pro then PRICING_OPENAI_GPT4 else PRICING_OPENAI_GPT3_5
    | ProviderArg.known AIProvider.CLAUDE =>
        if modelType = ModelType.pro then PRICING_CLAUDE_SONNET else PRICING_CLAUDE_HAIKU
    | ProviderArg.other _ => PRICING_GEMINI_FLASH
  let textCost : ℚ := inputTokens * pricing.input + outputTokens * pricing.output
  let imageCost : ℚ := images * pricing.image + premiumImages * pricing.image
  textCost + imageCost

/-- The static per-provider, per-tier price table as the spec describes it
(spec section 4.4): one pricing row per supported provider and tier, the
`pro` tier selecting the elevated row and every other tier the base row.
Stated separately from `calculateEstimatedCost` so the cost function can be
proved to refine it. -/
def providerTierPricing (p : AIProvider) (t : ModelType) : Pricing :=
  match p, t with
  | AIProvider.GEMINI, ModelType.pro => PRICING_GEMINI_PRO
  | AIProvider.GEMINI, _ => PRICING_GEMINI_FLASH
  | AIProvider.OPENAI, ModelType.pro => PRICING_OPENAI_GPT4
  | AIProvider.OPENAI, _ => PRICING_OPENAI_GPT3_5
  | AIProvider.CLAUDE, ModelType.pro => PRICING_CLAUDE_SONNET
  | AIProvider.CLAUDE, _ => PRICING_CLAUDE_HAIKU

/-- ASCII lowercase of a string, modelling JavaScript `toLowerCase()` on
the ASCII provider error messages the classifier inspects. -/
def strToLower (s : String) : String := String.mk (s.data.map Char.toLower)

/-- Whether the character list `hay` starts with the character list
`need`. -/
def listStartsWith : List Char → List Char → Bool
| _, [] => true
| [], _ :: _ => false
| a :: hs, b :: ns => a == b && listStartsWith hs ns

/-- Whether the character list `need` occurs contiguously inside `hay`. -/
def charsContain : List Char → List Char → Bool
| [], need => need.isEmpty
| a :: hs, need => listStartsWith (a :: hs) need || charsContain hs need

/-- JavaScript `s.includes(sub)`: substring membership. -/
def strIncludes (s sub : String) : Bool := charsContain s.data sub.data

/-- A JavaScript error value as the error handlers of aiService inspect
it: `message`, `code`, a nested `error.message` / `error.code`, and
`status`. Absent properties are `none`. -/
structure JSError where
  message : Option String := none
  code : Option Int := none
  errorMessage : Option String := none
  errorCode : Option Int := none
  status : Option Int := none
deriving DecidableEq, Repr

/-- JavaScript `a || b || ""` on two possibly-absent strings: the first
present, non-empty string, else the second if present, else `""`
(the empty string is falsy). -/
def jsStrOr (a b : Option String) : String :=
  match a with
  | some s => if s = "" then b.getD ("") else s
  | none => b.getD ("")

/-- JavaScript `a || b` on two possibly-absent numbers: the first operand
if present and non-zero (zero is falsy), else the second operand. -/
def jsNumOr (a b : Option Int) : Option Int :=
  match a with
  | some n => if n = 0 then b else some n
  | none => b

/-- The error thrown as `new Error("API_KEY_ERROR")`: the canonical
authentication error of the facade. -/
def API_KEY_ERROR : JSError := { message := some ("API_KEY_ERROR") }

/-- The `"permission"` phrase matched by the Gemini error classifier. -/
def permissionPhrase : String := "permission"

/-- The `"not found"` phrase matched by the Gemini error classifier. -/
def notFoundPhrase : String := "not found"

/-- The `"api_key_invalid"` phrase matched by the Gemini error
classifier. -/
def apiKeyInvalidPhrase : String := "api_key_invalid"

/-- The condition under which `handleGeminiError` classifies an error as
an authentication failure: `errorCode === 403 || errorCode === 404` or the
lowercased message contains one of the three known phrases, where
`errorMessage = (error?.message || error?.error?.message || "").toLowerCase()`
and `errorCode = error?.code || error?.error?.code`. -/
def geminiAuthTest (e : JSError) : Bool :=
  let errorMessage := strToLower (jsStrOr e.message e.errorMessage)
  let errorCode := jsNumOr e.code e.errorCode
  (errorCode == some 403) || (errorCode == some 404) ||
    strIncludes errorMessage permissionPhrase ||
    strIncludes errorMessage notFoundPhrase ||
    strIncludes errorMessage apiKeyInvalidPhrase

/-- `handleGeminiError` from aiService: throws `API_KEY_ERROR` when
`geminiAuthTest` holds and rethrows the original error otherwise. The
function always throws; it is modelled as returning the thrown error. -/
def handleGeminiError (e : JSError) : JSError :=
  if geminiAuthTest e then API_KEY_ERROR else e

/-- `handleOpenAIError` from aiService: throws `API_KEY_ERROR` exactly
when `error?.status === 401`, and rethrows the original error
otherwise. -/
def handleOpenAIError (e : JSError) : JSError :=
  if e.status == some 401 then API_KEY_ERROR else e

/-- `handleClaudeError` from aiService: throws `API_KEY_ERROR` exactly
when `error?.status === 401`, and rethrows the original error
otherwise. -/
def handleClaudeError (e : JSError) : JSError :=
  if e.status == some 401 then API_KEY_ERROR else e

/-- `handleGenAIError` from the legacy geminiService: textually the same
classifier as `handleGeminiError`. -/
def handleGenAIError (e : JSError) : JSError :=
  if geminiAuthTest e then API_KEY_ERROR else e

/-- The `GameState` interface from types.ts: all seven narrative fields
present. -/
structure GameState where
  storyText : String
  choices : List String
  inventory : List String
  currentQuest : String
  visualPrompt : String
  worldStyle : String
  genre : String
deriving DecidableEq, Repr

/-- A JSON object reply from an upstream model, as `JSON.parse` produces
it at runtime: each of the seven recognized narrative fields may be
absent. (A field that is present but of the wrong JSON type is out of
scope of the claims; string fields may be present and empty, which
JavaScript treats as falsy.) -/
structure ParsedState where
  storyText : Option String := none
  choices : Option (List String) := none
  inventory : Option (List String) := none
  currentQuest : Option String := none
  visualPrompt : Option String := none
  worldStyle : Option String := none
  genre : Option String := none
deriving DecidableEq, Repr

/-- The empty JSON object `{}` viewed as a parsed reply. -/
def emptyParsed : ParsedState := {}

/-- JavaScript `v || d` for a string field of a parsed reply: the default
replaces an absent or empty-string value. -/
def jsDefStr (v : Option String) (d : String) : String :=
  match v with
  | some s => if s = "" then d else s
  | none => d

/-- JavaScript `v || d` for an array field of a parsed reply: the default
replaces only an absent value (every array, including `[]`, is truthy). -/
def jsDefArr (v : Option (List String)) (d : List String) : List String :=
  v.getD d

/-- Default story text substituted by the OpenAI and Claude story
adapters. -/
def defaultStoryText : String := "The story begins..."

/-- Default choices list substituted by the OpenAI and Claude story
adapters. -/
def defaultChoices : List String := ["Continue"]

/-- Default quest substituted by the OpenAI and Claude story adapters. -/
def defaultQuest : String := "Unknown quest"

/-- Default visual prompt substituted by the OpenAI and Claude story
adapters. -/
def defaultVisualPrompt : String := "A mysterious scene"

/-- Default world style substituted by the OpenAI and Claude story
adapters. -/
def defaultWorldStyle : String := "fantasy"

/-- Default genre substituted by the OpenAI and Claude story adapters. -/
def defaultGenre : String := "Fantasy"

/-- The field-by-field normalization in `openaiGenerateStory`
("Ensure all required fields are present"): each field of the parsed
reply falls back to its deterministic default via JavaScript `||`. -/
def openaiNormalizeStory (parsed : ParsedState) : GameState :=
{ storyText := jsDefStr parsed.storyText defaultStoryText
  choices := jsDefArr parsed.choices defaultChoices
  inventory := jsDefArr parsed.inventory []
  currentQuest := jsDefStr parsed.currentQuest defaultQuest
  visualPrompt := jsDefStr parsed.visualPrompt defaultVisualPrompt
  worldStyle := jsDefStr parsed.worldStyle defaultWorldStyle
  genre := jsDefStr parsed.genre defaultGenre }

/-- The field-by-field normalization in `claudeGenerateStory`: textually
the same defaulting as the OpenAI story adapter. -/
def claudeNormalizeStory (parsed : ParsedState) : GameState :=
{ storyText := jsDefStr parsed.storyText defaultStoryText
  choices := jsDefArr parsed.choices defaultChoices
  inventory := jsDefArr parsed.inventory []
  currentQuest := jsDefStr parsed.currentQuest defaultQuest
  visualPrompt := jsDefStr parsed.visualPrompt defaultVisualPrompt
  worldStyle := jsDefStr parsed.worldStyle defaultWorldStyle
  genre := jsDefStr parsed.genre defaultGenre }

/-- A fully-populated `GameState` viewed as a runtime JSON object with
every field present. -/
def toParsed (g : GameState) : ParsedState :=
{ storyText := some g.storyText
  choices := some g.choices
  inventory := some g.inventory
  currentQuest := some g.currentQuest
  visualPrompt := some g.visualPrompt
  worldStyle := some g.worldStyle
  genre := some g.genre }

/-- Whether every one of the seven narrative fields of a runtime reply
object is present. -/
def allFieldsPopulated (p : ParsedState) : Bool :=
  p.storyText.isSome && p.choices.isSome && p.inventory.isSome &&
    p.currentQuest.isSome && p.visualPrompt.isSome && p.worldStyle.isSome &&
    p.genre.isSome

/-- The usage envelope attached to every adapter result
(`ServiceResponse.usage` in aiService). -/
structure Usage where
  inputTokens : ℕ
  outputTokens : ℕ
  isPremium : Option Bool := none
  provider : AIProvider
deriving DecidableEq, Repr

/-- A successful story result: the (runtime-shaped) narrative data plus
the usage envelope. -/
structure StoryResult where
  data : ParsedState
  usage : Usage
deriving DecidableEq, Repr

/-- The upstream Gemini reply consumed by `geminiGenerateStory`:
`response.text` may be absent (then `'{}'` is parsed), present but not
valid JSON (then `JSON.parse` throws the recorded error), or valid JSON;
`usageMetadata` token counts may be absent. -/
structure GeminiStoryReply where
  text : Option (Except JSError ParsedState)
  promptTokenCount : Option ℕ
  candidatesTokenCount : Option ℕ

/-- The upstream OpenAI chat-completions reply consumed by
`openaiGenerateStory`: the HTTP `ok` flag and `statusText`, the message
content as a JSON-parse outcome (`none` when `JSON.parse` throws), and
the usage token counts. -/
structure OpenAIStoryReply where
  ok : Bool
  statusText : String
  content : Option ParsedState
  prompt_tokens : ℕ
  completion_tokens : ℕ

/-- The upstream Anthropic messages reply consumed by
`claudeGenerateStory`, shaped like the OpenAI one but with
`content[0].text` and `input_tokens` / `output_tokens`. -/
structure ClaudeStoryReply where
  ok : Bool
  statusText : String
  content : Option ParsedState
  input_tokens : ℕ
  output_tokens : ℕ

/-- An error object holding only a message string, as `new Error(msg)`
constructs it. -/
def mkError (msg : String) : JSError := { message := some msg }

/-- `geminiGenerateStory` from aiService: parses `response.text || '{}'`
as JSON with no field normalization (`JSON.parse(...) as GameState` is a
type assertion only) and extracts token counts with `|| 0`. The network
round trip itself may fail with a transport error, modelled by the
`Except` around the reply. -/
def geminiGenerateStory (env : Except JSError GeminiStoryReply) :
    Except JSError StoryResult :=
  match env with
  | Except.error e => Except.error e
  | Except.ok r =>
    let usage : Usage :=
      { inputTokens := r.promptTokenCount.getD 0
        outputTokens := r.candidatesTokenCount.getD 0
        provider := AIProvider.GEMINI }
    match r.text with
    | none => Except.ok { data := emptyParsed, usage := usage }
    | some (Except.error e) => Except.error e
    | some (Except.ok parsed) => Except.ok { data := parsed, usage := usage }

/-- The error text thrown by `openaiGenerateStory` on a non-ok HTTP
response. -/
def openaiApiErrorText (statusText : String) : String :=
  "OpenAI API error: " ++ statusText

/-- The error thrown by `openaiGenerateStory` when the message content is
not valid JSON. -/
def openaiInvalidFormatError : JSError :=
  mkError ("Invalid response format from OpenAI")

/-- `openaiGenerateStory` from aiService: throws on a non-ok HTTP
response, throws a fixed parse error when the content is not JSON, and
otherwise normalizes the parsed object field by field and reports the
reply's token counts. -/
def openaiGenerateStory (env : Except JSError OpenAIStoryReply) :
    Except JSError StoryResult :=
  match env with
  | Except.error e => Except.error e
  | Except.ok r =>
    if r.ok = false then Except.error (mkError (openaiApiErrorText r.statusText))
    else
      match r.content with
      | none => Except.error openaiInvalidFormatError
      | some parsed =>
        Except.ok
          { data := toParsed (openaiNormalizeStory parsed)
            usage :=
              { inputTokens := r.prompt_tokens
                outputTokens := r.completion_tokens
                provider := AIProvider.OPENAI } }

/-- The error text thrown by `claudeGenerateStory` on a non-ok HTTP
response. -/
def claudeApiErrorText (statusText : String) : String :=
  "Claude API error: " ++ statusText

/-- The error thrown by `claudeGenerateStory` when the message content is
not valid JSON. -/
def claudeInvalidFormatError : JSError :=
  mkError ("Invalid response format from Claude")

/-- `claudeGenerateStory` from aiService: same shape as the OpenAI story
adapter, with Anthropic field names. -/
def claudeGenerateStory (env : Except JSError ClaudeStoryReply) :
    Except JSError StoryResult :=
  match env with
  | Except.error e => Except.error e
  | Except.ok r =>
    if r.ok = false then Except.error (mkError (claudeApiErrorText r.statusText))
    else
      match r.content with
      | none => Except.error claudeInvalidFormatError
      | some parsed =>
        Except.ok
          { data := toParsed (claudeNormalizeStory parsed)
            usage :=
              { inputTokens := r.input_tokens
                outputTokens := r.output_tokens
                provider := AIProvider.CLAUDE } }

/-- The upstream world a story call runs against: one potential reply per
provider endpoint. -/
structure StoryEnv where
  gemini : Except JSError GeminiStoryReply
  openai : Except JSError OpenAIStoryReply
  claude : Except JSError ClaudeStoryReply

/-- The error text thrown by the facades' `default` switch branch. -/
def unsupportedProviderText (s : String) : String :=
  "Unsupported provider: " ++ s

/-- `generateStoryBeat` from aiService: dispatches on the provider to the
matching story adapter (the `default` branch throws an unsupported-
provider error), and routes any thrown error through the provider's error
handler (the `default` branch of the catch rethrows unchanged). -/
def generateStoryBeat (prompt : String) (provider : ProviderArg)
    (env : StoryEnv) : Except JSError StoryResult :=
  let body : Except JSError StoryResult :=
    match provider with
    | ProviderArg.known AIProvider.GEMINI => geminiGenerateStory env.gemini
    | ProviderArg.known AIProvider.OPENAI => openaiGenerateStory env.openai
    | ProviderArg.known AIProvider.CLAUDE => claudeGenerateStory env.claude
    | ProviderArg.other s => Except.error (mkError (unsupportedProviderText s))
  match body with
  | Except.ok r => Except.ok r
  | Except.error e =>
    match provider with
    | ProviderArg.known AIProvider.GEMINI => Except.error (handleGeminiError e)
    | ProviderArg.known AIProvider.OPENAI => Except.error (handleOpenAIError e)
    | ProviderArg.known AIProvider.CLAUDE => Except.error (handleClaudeError e)
    | ProviderArg.other _ => Except.error e

/-- The `'standard' | 'fast'` quality argument of the image operations in
aiService. -/
inductive Quality
| standard
| fast
deriving DecidableEq, Repr

/-- The upstream Gemini reply consumed by `geminiGenerateImage`: the
candidate parts (each optionally carrying `inlineData.data`) and the
usage metadata token counts. -/
structure GeminiImageReply where
  parts : List (Option String)
  promptTokenCount : Option ℕ
  candidatesTokenCount : Option ℕ

/-- The upstream OpenAI images reply consumed by `openaiGenerateImage`:
the HTTP `ok` flag, `statusText`, the error body text read on failure,
and `data[0].url` on success. -/
structure OpenAIImageReply where
  ok : Bool
  statusText : String
  errorText : String
  url : String

/-- The image-scan loop of the Gemini image adapters: the first part
carrying `inlineData` yields `data:image/png;base64,` ++ its payload. -/
def firstInline : List (Option String) → Option String
| [] => none
| some d :: _ => some ("data:image/png;base64," ++ d)
| none :: rest => firstInline rest

/-- An image result: the optional image reference plus the usage
envelope. -/
structure ImageResult where
  data : Option String
  usage : Usage
deriving DecidableEq, Repr

/-- `geminiGenerateImage` from aiService: one network round trip, the
first inline-data part as the image payload, token counts with `|| 0`,
and `isPremium: false`. The first component counts network calls. -/
def geminiGenerateImage (env : Except JSError GeminiImageReply) :
    ℕ × Except JSError ImageResult :=
  match env with
  | Except.error e => (1, Except.error e)
  | Except.ok r =>
    (1, Except.ok
      { data := firstInline r.parts
        usage :=
          { inputTokens := r.promptTokenCount.getD 0
            outputTokens := r.candidatesTokenCount.getD 0
            isPremium := some false
            provider := AIProvider.GEMINI } })

/-- The error text thrown by `openaiGenerateImage` on a non-ok HTTP
response: statusText and the error body. -/
def openaiImageErrorText (statusText errorText : String) : String :=
  "OpenAI API error: " ++ statusText ++ " - " ++ errorText

/-- `openaiGenerateImage` from aiService: one network round trip; throws
on a non-ok response; on success returns `data[0].url` with zero token
counts and `isPremium: true` unconditionally, whatever the requested
quality. -/
def openaiGenerateImage (env : Except JSError OpenAIImageReply) :
    ℕ × Except JSError ImageResult :=
  match env with
  | Except.error e => (1, Except.error e)
  | Except.ok r =>
    if r.ok = false then
      (1, Except.error (mkError (openaiImageErrorText r.statusText r.errorText)))
    else
      (1, Except.ok
        { data := some r.url
          usage :=
            { inputTokens := 0
              outputTokens := 0
              isPremium := some true
              provider := AIProvider.OPENAI } })

/-- `claudeGenerateImage` from aiService: Claude has no image capability;
the adapter returns `{data: undefined}` with a zeroed usage envelope
(and no `isPremium` property) without any network call. -/
def claudeGenerateImage : ℕ × Except JSError ImageResult :=
  (0, Except.ok
    { data := none
      usage :=
        { inputTokens := 0
          outputTokens := 0
          isPremium := none
          provider := AIProvider.CLAUDE } })

/-- The upstream world an image call runs against. -/
structure ImageEnv where
  gemini : Except JSError GeminiImageReply
  openai : Except JSError OpenAIImageReply

/-- `generateImage` from aiService: dispatches on the provider to the
matching image adapter and routes thrown errors through the provider's
error handler, counting network calls. -/
def generateImage (prompt style : String) (provider : ProviderArg)
    (quality : Quality) (env : ImageEnv) : ℕ × Except JSError ImageResult :=
  let body : ℕ × Except JSError ImageResult :=
    match provider with
    | ProviderArg.known AIProvider.GEMINI => geminiGenerateImage env.gemini
    | ProviderArg.known AIProvider.OPENAI => openaiGenerateImage env.openai
    | ProviderArg.known AIProvider.CLAUDE => claudeGenerateImage
    | ProviderArg.other s => (0, Except.error (mkError (unsupportedProviderText s)))
  match body with
  | (n, Except.ok r) => (n, Except.ok r)
  | (n, Except.error e) =>
    match provider with
    | ProviderArg.known AIProvider.GEMINI => (n, Except.error (handleGeminiError e))
    | ProviderArg.known AIProvider.OPENAI => (n, Except.error (handleOpenAIError e))
    | ProviderArg.known AIProvider.CLAUDE => (n, Except.error (handleClaudeError e))
    | ProviderArg.other _ => (n, Except.error e)

/-- The separator `", "` used to join the inventory into the persona
directive. -/
def commaSep : String := ", "

/-- The TypeError raised by JavaScript when `.join` is read off an
`undefined` inventory. -/
def joinTypeError : JSError :=
  mkError ("Cannot read properties of undefined (reading \x27join\x27)")

/-- JavaScript `inv.join(sep)`: raises a TypeError when `inv` is
`undefined`, else joins the items. -/
def jsJoin : Option (List String) → String → Except JSError String
| none, _ => Except.error joinTypeError
| some l, sep => Except.ok (String.intercalate sep l)

/-- JavaScript `a || b` on a possibly-absent array: any array (including
the empty one) is truthy. -/
def jsOrList (a b : Option (List String)) : Option (List String) :=
  match a with
  | some l => some l
  | none => b

/-- The Chronicler persona directive template shared verbatim (up to
indentation of the template-literal continuation lines) by the three chat
branches and the legacy service, with the genre, quest and rendered
inventory interpolated. -/
def chroniclerDirective (indent genre quest inv : String) : String :=
  "You are the Chronicler, a wise and helpful sidekick in this infinite adventure game. \n"
    ++ indent ++ "The current genre is " ++ genre
    ++ ". The player\x27s quest is: " ++ quest ++ ".\n"
    ++ indent ++ "Their inventory includes: " ++ inv ++ ".\n"
    ++ indent
    ++ "If the genre is \x2780s Sci-Fi Horror\x27, speak with 80s slang like \x27rad\x27, \x27bogus\x27, or \x27tubular\x27 occasionally."

/-- The 12-space template-literal indentation of the Gemini and Claude
chat branches of aiService. -/
def indent12 : String := "            "

/-- The 16-space template-literal indentation of the OpenAI chat branch
of aiService. -/
def indent16 : String := "                "

/-- The 8-space template-literal indentation of the legacy geminiService
chat directive. -/
def indent8 : String := "        "

/-- The fallback reply used when the Gemini chat response has no text. -/
def chatApology : String := "I apologize, my vision is clouded..."

/-- The part of a `GameState` runtime value the chat code reads: genre,
quest, and a possibly-`undefined` inventory. -/
structure GameContextJS where
  genre : String
  currentQuest : String
  inventory : Option (List String)
deriving DecidableEq, Repr

/-- The upstream Gemini chat reply consumed by the Gemini chat branch. -/
structure GeminiChatReply where
  text : Option String
  promptTokenCount : Option ℕ
  candidatesTokenCount : Option ℕ

/-- The upstream OpenAI chat reply consumed by the OpenAI chat branch. -/
structure OpenAIChatReply where
  ok : Bool
  statusText : String
  content : String
  prompt_tokens : ℕ
  completion_tokens : ℕ

/-- The upstream Anthropic chat reply consumed by the Claude chat
branch. -/
structure ClaudeChatReply where
  ok : Bool
  statusText : String
  text : String
  input_tokens : ℕ
  output_tokens : ℕ

/-- The upstream world a chat call runs against. -/
structure ChatEnv where
  gemini : Except JSError GeminiChatReply
  openai : Except JSError OpenAIChatReply
  claude : Except JSError ClaudeChatReply

/-- A successful chat outcome: the system persona directive the request
carried, the reply text, and the usage envelope. -/
structure ChatOutcome where
  directive : String
  data : String
  usage : Usage
deriving DecidableEq, Repr

/-- `getChatResponse` from aiService: each provider branch interpolates
`(gameContext.inventory || []).join(', ')` into its own copy of the
persona directive (so a missing inventory is coerced to the empty list
before `.join` is read), performs the chat round trip, and extracts the
reply; thrown errors are routed through the provider's error handler. -/
def getChatResponse (message : String) (ctx : GameContextJS)
    (provider : ProviderArg) (env : ChatEnv) : Except JSError ChatOutcome :=
  let body : Except JSError ChatOutcome :=
    match provider with
    | ProviderArg.known AIProvider.GEMINI =>
      match jsJoin (jsOrList ctx.inventory (some [])) commaSep with
      | Except.error e => Except.error e
      | Except.ok inv =>
        match env.gemini with
        | Except.error e => Except.error e
        | Except.ok r =>
          Except.ok
            { directive := chroniclerDirective indent12 ctx.genre ctx.currentQuest inv
              data := jsDefStr r.text chatApology
              usage :=
                { inputTokens := r.promptTokenCount.getD 0
                  outputTokens := r.candidatesTokenCount.getD 0
                  provider := AIProvider.GEMINI } }
    | ProviderArg.known AIProvider.OPENAI =>
      match jsJoin (jsOrList ctx.inventory (some [])) commaSep with
      | Except.error e => Except.error e
      | Except.ok inv =>
        match env.openai with
        | Except.error e => Except.error e
        | Except.ok r =>
          if r.ok = false then Except.error (mkError (openaiApiErrorText r.statusText))
          else
            Except.ok
              { directive := chroniclerDirective indent16 ctx.genre ctx.currentQuest inv
                data := r.content
                usage :=
                  { inputTokens := r.prompt_tokens
                    outputTokens := r.completion_tokens
                    provider := AIProvider.OPENAI } }
    | ProviderArg.known AIProvider.CLAUDE =>
      match jsJoin (jsOrList ctx.inventory (some [])) commaSep with
      | Except.error e => Except.error e
      | Except.ok inv =>
        match env.claude with
        | Except.error e => Except.error e
        | Except.ok r =>
          if r.ok = false then Except.error (mkError (claudeApiErrorText r.statusText))
          else
            Except.ok
              { directive := chroniclerDirective indent12 ctx.genre ctx.currentQuest inv
                data := r.text
                usage :=
                  { inputTokens := r.input_tokens
                    outputTokens := r.output_tokens
                    provider := AIProvider.CLAUDE } }
    | ProviderArg.other s => Except.error (mkError (unsupportedProviderText s))
  match body with
  | Except.ok r => Except.ok r
  | Except.error e =>
    match provider with
    | ProviderArg.known AIProvider.GEMINI => Except.error (handleGeminiError e)
    | ProviderArg.known AIProvider.OPENAI => Except.error (handleOpenAIError e)
    | ProviderArg.known AIProvider.CLAUDE => Except.error (handleClaudeError e)
    | ProviderArg.other _ => Except.error e

/-- The `ImageSize` enum from types.ts. -/
inductive ImageSize
| K1
| K2
| K4
deriving DecidableEq, Repr

/-- The legacy geminiService usage envelope: no provider tag. -/
structure LegacyUsage where
  inputTokens : ℕ
  outputTokens : ℕ
  isPremium : Option Bool := none
deriving DecidableEq, Repr

/-- A legacy image outcome: the optional image reference plus usage. -/
structure LegacyImageOutcome where
  data : Option String
  usage : LegacyUsage
deriving DecidableEq, Repr

/-- A legacy chat outcome: directive sent, reply text, and usage. -/
structure LegacyChatOutcome where
  directive : String
  data : String
  usage : LegacyUsage
deriving DecidableEq, Repr

namespace Legacy

/-- `generateImage` from the legacy geminiService: picks the pro or flash
image model by `isHighResRequested`, takes the first inline-data part as
the payload, and sets `isPremium: isHighResRequested`; errors go through
`handleGenAIError`. -/
def generateImage (prompt style : String) (size : ImageSize)
    (isHighResRequested : Bool) (env : Except JSError GeminiImageReply) :
    Except JSError LegacyImageOutcome :=
  match env with
  | Except.error e => Except.error (handleGenAIError e)
  | Except.ok r =>
    Except.ok
      { data := firstInline r.parts
        usage :=
          { inputTokens := r.promptTokenCount.getD 0
            outputTokens := r.candidatesTokenCount.getD 0
            isPremium := some isHighResRequested } }

/-- `getChatResponse` from the legacy geminiService: interpolates
`gameContext.inventory.join(', ')` into the persona directive with no
coercion of a missing inventory, so reading `.join` off `undefined`
raises; any raised error goes through `handleGenAIError`. -/
def getChatResponse (message : String) (ctx : GameContextJS)
    (env : Except JSError GeminiChatReply) : Except JSError LegacyChatOutcome :=
  let body : Except JSError LegacyChatOutcome :=
    match jsJoin ctx.inventory commaSep with
    | Except.error e => Except.error e
    | Except.ok inv =>
      match env with
      | Except.error e => Except.error e
      | Except.ok r =>
        Except.ok
          { directive := chroniclerDirective indent8 ctx.genre ctx.currentQuest inv
            data := jsDefStr r.text chatApology
            usage :=
              { inputTokens := r.promptTokenCount.getD 0
                outputTokens := r.candidatesTokenCount.getD 0 } }
  match body with
  | Except.ok r => Except.ok r
  | Except.error e => Except.error (handleGenAIError e)

end Legacy

/-- The browser `localStorage`, modelled as a total map from keys to
optionally-present string values. -/
def Store : Type := String → Option String

/-- `localStorage.getItem`. -/
def localStorageGetItem (st : Store) (k : String) : Option String := st k

/-- `localStorage.setItem`. -/
def localStorageSetItem (st : Store) (k v : String) : Store :=
  fun q => if q = k then some v else st q

/-- `localStorage.removeItem`. -/
def localStorageRemoveItem (st : Store) (k : String) : Store :=
  fun q => if q = k then none else st q

/-- A storage with no entries. -/
def emptyStorage : Store := fun _ => none

/-- The storage key for one provider's credential:
`API_KEY_STORAGE_PREFIX` (the fixed namespace string
`'CHRONICLE_WEAVER_API_KEY_'`) followed by the provider identifier. -/
def apiKeyStorageKey (p : AIProvider) : String :=
  "CHRONICLE_WEAVER_API_KEY_" ++ p.value

/-- `getStoredApiKey` from aiService: the stored value, or `''` when
absent (`key || ''`). -/
def getStoredApiKey (st : Store) (p : AIProvider) : String :=
  jsStrOr (localStorageGetItem st (apiKeyStorageKey p)) none

/-- `setStoredApiKey` from aiService: a truthy (non-empty) secret is
stored, a falsy (empty) one removes the entry. -/
def setStoredApiKey (st : Store) (p : AIProvider) (key : String) : Store :=
  if key = "" then localStorageRemoveItem st (apiKeyStorageKey p)
  else localStorageSetItem st (apiKeyStorageKey p) key

/-- `hasApiKey` from aiService: whether the stored secret has positive
length. -/
def hasApiKey (st : Store) (p : AIProvider) : Bool :=
  decide (0 < (getStoredApiKey st p).length)

/-- `clearAllApiKeys` from aiService: removes the entry of every
`AIProvider` enum member. -/
def clearAllApiKeys (st : Store) : Store :=
  AIProvider.allValues.foldl
    (fun acc p => localStorageRemoveItem acc (apiKeyStorageKey p)) st

/-- `GameHistoryItem` from types.ts. -/
structure GameHistoryItem where
  text : String
  choice : String
  imageUrl : Option String := none
  state : Option GameState := none
deriving DecidableEq, Repr

/-- The role of a chat transcript entry. -/
inductive ChatRole
| user
| model
deriving DecidableEq, Repr

/-- `ChatMessage` from types.ts. -/
structure ChatMessage where
  role : ChatRole
  text : String
deriving DecidableEq, Repr

/-- `UsageStats` from types.ts. -/
structure UsageStats where
  inputTokens : ℕ
  outputTokens : ℕ
  imageCount : ℕ
  premiumImageCount : ℕ
  estimatedCost : ℚ
deriving DecidableEq, Repr

/-- `SaveSlot` from types.ts. -/
structure SaveSlot where
  id : String
  name : String
  genre : String
  lastUpdated : ℤ
  gameState : GameState
  history : List GameHistoryItem
  chatMessages : List ChatMessage
  usageStats : UsageStats
deriving DecidableEq, Repr

/-- The per-entry image stripping of the save-sync effect in App: keep
the latest (index 0) history entry's image and drop every older one. -/
def leanHistoryOf (history : List GameHistoryItem) : List GameHistoryItem :=
  history.mapIdx
    (fun i item =>
      { item with imageUrl := if i = 0 then item.imageUrl else none })

/-- The slot update of the save-sync effect in App: the slot whose id is
the current save id receives the fresh state, lean history, chat
transcript, usage stats and timestamp; every other slot is untouched. -/
def syncSlots (currentSaveId : String) (gameState : GameState)
    (history : List GameHistoryItem) (chatMessages : List ChatMessage)
    (usageStats : UsageStats) (now : ℤ) (prevSaves : List SaveSlot) :
    List SaveSlot :=
  prevSaves.map
    (fun s =>
      if s.id = currentSaveId then
        { s with
            gameState := gameState
            history := leanHistoryOf history
            chatMessages := chatMessages
            usageStats := usageStats
            lastUpdated := now }
      else s)

/-- A `DOMException` outcome of `localStorage.setItem`: either the
quota-exceeded error or some other failure. -/
inductive DomErr
| quotaExceeded
| otherExn (name : String)
deriving DecidableEq, Repr

/-- The listing-wide stripping of the quota fallback: drop the image
reference of every history entry of every slot. -/
def stripAllImages (slots : List SaveSlot) : List SaveSlot :=
  slots.map
    (fun s =>
      { s with history := s.history.map (fun h => { h with imageUrl := none }) })

/-- The persistence write of the save-sync effect in App, against an
abstract `write` to storage: try the write; on a quota-exceeded failure
strip all image references across all slots and issue the write again
(this second call stands outside any try/catch, so its outcome is the
effect's outcome); on any other failure do nothing (the error is
swallowed). The first component counts write attempts. -/
def persistSaves (write : List SaveSlot → Except DomErr Unit)
    (updated : List SaveSlot) : ℕ × Except DomErr Unit :=
  match write updated with
  | Except.ok _ => (1, Except.ok ())
  | Except.error e =>
    if e = DomErr.quotaExceeded then (2, write (stripAllImages updated))
    else (1, Except.ok ())

/-- A sample narrative prompt used in concrete instances. -/
def samplePrompt : String := "Begin the adventure"

/-- A sample style argument used in concrete instances. -/
def sampleStyle : String := "oil painting"

/-- A sample chat message used in concrete instances. -/
def sampleMessage : String := "hello"

/-- A sample genre used in concrete instances. -/
def sampleGenre : String := "High Fantasy"

/-- A sample quest used in concrete instances. -/
def sampleQuest : String := "Find the lost artifact"

/-- A story environment whose Gemini endpoint replies with the empty
JSON object and five/seven token counts (the other endpoints are
irrelevant to the call under test). -/
def envStoryGeminiEmptyObject : StoryEnv :=
{ gemini := Except.ok
    { text := some (Except.ok emptyParsed)
      promptTokenCount := some 5
      candidatesTokenCount := some 7 }
  openai := Except.error ({} : JSError)
  claude := Except.error ({} : JSError) }

/-- An upstream failure carrying HTTP status 403 (forbidden). -/
def err403 : JSError := { status := some 403 }

/-- A story environment whose OpenAI endpoint fails with `err403`. -/
def envStoryOpenai403 : StoryEnv :=
{ gemini := Except.error ({} : JSError)
  openai := Except.error err403
  claude := Except.error ({} : JSError) }

/-- A storage write that always fails with the quota-exceeded error. -/
def alwaysQuotaWrite : List SaveSlot → Except DomErr Unit :=
  fun _ => Except.error DomErr.quotaExceeded

/-- A game context whose inventory property is absent. -/
def ctxNoInventory : GameContextJS :=
{ genre := sampleGenre, currentQuest := sampleQuest, inventory := none }

/-- A successful Gemini chat reply used in concrete instances. -/
def sampleChatReply : GeminiChatReply :=
{ text := some sampleGenre
  promptTokenCount := some 1
  candidatesTokenCount := some 2 }

/-- A sample image URL used in concrete instances. -/
def sampleUrl : String := "https://example.com/image.png"

/-- An image environment whose OpenAI endpoint succeeds with
`sampleUrl`. -/
def envImageOpenaiOk : ImageEnv :=
{ gemini := Except.error ({} : JSError)
  openai := Except.ok
    { ok := true, statusText := "", errorText := "", url := sampleUrl } }

/-- A sample non-empty credential used in concrete instances. -/
def sampleSecret : String := "sk-test-123"

/-- A story environment whose Gemini endpoint succeeds with an absent
`response.text` (parsed as the empty object) and absent usage metadata. -/
def envStoryGeminiNoText : StoryEnv :=
{ gemini := Except.ok
    { text := none, promptTokenCount := none, candidatesTokenCount := none }
  openai := Except.error ({} : JSError)
  claude := Except.error ({} : JSError) }

/-- The story result of `envStoryGeminiNoText` under the Gemini
provider. -/
def storyResultGeminiNoText : StoryResult :=
{ data := emptyParsed
  usage := { inputTokens := 0, outputTokens := 0, provider := AIProvider.GEMINI } }

/-- An image environment with no usable endpoint (the Claude image
adapter consults none). -/
def envImageUnused : ImageEnv :=
{ gemini := Except.error ({} : JSError)
  openai := Except.error ({} : JSError) }

/-- The image result of the Claude image adapter. -/
def claudeImageResult : ImageResult :=
{ data := none
  usage := { inputTokens := 0, outputTokens := 0,
             isPremium := none, provider := AIProvider.CLAUDE } }

/-- A chat environment whose Gemini endpoint succeeds with an empty
reply. -/
def envChatGeminiEmptyReply : ChatEnv :=
{ gemini := Except.ok
    { text := none, promptTokenCount := none, candidatesTokenCount := none }
  openai := Except.error ({} : JSError)
  claude := Except.error ({} : JSError) }

/-- A game context with an explicitly empty inventory. -/
def ctxEmptyInventory : GameContextJS :=
{ genre := sampleGenre, currentQuest := sampleQuest, inventory := some [] }

/-- The chat outcome of `envChatGeminiEmptyReply` with
`ctxEmptyInventory` under the Gemini provider. -/
def chatOutcomeGeminiEmptyReply : ChatOutcome :=
{ directive := chroniclerDirective indent12 sampleGenre sampleQuest ("")
  data := chatApology
  usage := { inputTokens := 0, outputTokens := 0, provider := AIProvider.GEMINI } }

/-- C1 (counterexample): with the Gemini provider and an upstream reply
that parses as the empty JSON object, `generateStoryBeat` succeeds but
returns the parsed object unchanged: no field is populated and the
omitted `storyText` is not replaced by its default, contradicting the
claim for the Gemini provider. -/
theorem C1_counterexample :
    generateStoryBeat samplePrompt (ProviderArg.known AIProvider.GEMINI)
        envStoryGeminiEmptyObject =
      Except.ok
        { data := emptyParsed
          usage := { inputTokens := 5, outputTokens := 7,
                     provider := AIProvider.GEMINI } } ∧
    allFieldsPopulated emptyParsed = false ∧
    emptyParsed.storyText = none := by
  refine ⟨rfl, rfl, rfl⟩

/-- C1 (amended): for the OpenAI and Claude providers a successful
`generateStoryBeat` returns a state with all seven fields populated and
each omitted field independently replaced by its deterministic default;
for the Gemini provider the parsed reply object is returned unchanged,
so omitted fields stay absent. -/
theorem C1_amended_story_normalization :
    (∀ (p : ParsedState) (st : String) (pt ct : ℕ) (env : StoryEnv),
       generateStoryBeat samplePrompt (ProviderArg.known AIProvider.OPENAI)
           { env with openai := (Except.ok
               { ok := true, statusText := st, content := some p,
                 prompt_tokens := pt, completion_tokens := ct }) } =
         Except.ok
           { data := toParsed (openaiNormalizeStory p)
             usage := { inputTokens := pt, outputTokens := ct,
                        provider := AIProvider.OPENAI } }) ∧
    (∀ p : ParsedState, allFieldsPopulated (toParsed (openaiNormalizeStory p)) = true) ∧
    (∀ p : ParsedState,
       (openaiNormalizeStory { p with storyText := none }).storyText = defaultStoryText) ∧
    (∀ p : ParsedState,
       (openaiNormalizeStory { p with choices := none }).choices = defaultChoices) ∧
    (∀ p : ParsedState,
       (openaiNormalizeStory { p with inventory := none }).inventory = []) ∧
    (∀ p : ParsedState,
       (openaiNormalizeStory { p with currentQuest := none }).currentQuest = defaultQuest) ∧
    (∀ p : ParsedState,
       (openaiNormalizeStory { p with visualPrompt := none }).visualPrompt = defaultVisualPrompt) ∧
    (∀ p : ParsedState,
       (openaiNormalizeStory { p with worldStyle := none }).worldStyle = defaultWorldStyle) ∧
    (∀ p : ParsedState,
       (openaiNormalizeStory { p with genre := none }).genre = defaultGenre) ∧
    (∀ (p : ParsedState) (st : String) (it ot : ℕ) (env : StoryEnv),
       generateStoryBeat samplePrompt (ProviderArg.known AIProvider.CLAUDE)
           { env with claude := (Except.ok
               { ok := true, statusText := st, content := some p,
                 input_tokens := it, output_tokens := ot }) } =
         Except.ok
           { data := toParsed (claudeNormalizeStory p)
             usage := { inputTokens := it, outputTokens := ot,
                        provider := AIProvider.CLAUDE } }) ∧
    (∀ p : ParsedState, allFieldsPopulated (toParsed (claudeNormalizeStory p)) = true) ∧
    (∀ p : ParsedState,
       (claudeNormalizeStory { p with storyText := none }).storyText = defaultStoryText) ∧
    (∀ p : ParsedState,
       (claudeNormalizeStory { p with choices := none }).choices = defaultChoices) ∧
    (∀ p : ParsedState,
       (claudeNormalizeStory { p with inventory := none }).inventory = []) ∧
    (∀ p : ParsedState,
       (claudeNormalizeStory { p with currentQuest := none }).currentQuest = defaultQuest) ∧
    (∀ p : ParsedState,
       (claudeNormalizeStory { p with visualPrompt := none }).visualPrompt = defaultVisualPrompt) ∧
    (∀ p : ParsedState,
       (claudeNormalizeStory { p with worldStyle := none }).worldStyle = defaultWorldStyle) ∧
    (∀ p : ParsedState,
       (claudeNormalizeStory { p with genre := none }).genre = defaultGenre) ∧
    (∀ (p : ParsedState) (pt ct : Option ℕ) (env : StoryEnv),
       generateStoryBeat samplePrompt (ProviderArg.known AIProvider.GEMINI)
           { env with gemini := (Except.ok
               { text := some (Except.ok p), promptTokenCount := pt,
                 candidatesTokenCount := ct }) } =
         Except.ok
           { data := p
             usage := { inputTokens := pt.getD 0, outputTokens := ct.getD 0,
                        provider := AIProvider.GEMINI } }) := by
  refine ⟨?_, ?_, ?_, ?_, ?_, ?_, ?_, ?_, ?_, ?_, ?_, ?_, ?_, ?_, ?_, ?_, ?_, ?_, ?_⟩ <;>
    intros <;> rfl

/-- C2 (counterexample): an upstream failure carrying HTTP status 403 on
the OpenAI story call — an invalid/forbidden-credential signal by the
claim's definition — is re-raised unchanged by the facade instead of
being classified as `API_KEY_ERROR`. -/
theorem C2_counterexample :
    generateStoryBeat samplePrompt (ProviderArg.known AIProvider.OPENAI)
        envStoryOpenai403 =
      Except.error err403 ∧
    err403.status = some 403 ∧
    err403 ≠ API_KEY_ERROR := by
  refine ⟨rfl, rfl, by decide⟩

/-- C2 (amended): the facade's authentication classification is
provider-specific. For Gemini it raises `API_KEY_ERROR` exactly when the
error's (possibly nested) code is 403 or 404 or its lowercased message
contains "permission", "not found" or "api_key_invalid"; for OpenAI and
Claude exactly when the error's status is 401. In every other case the
original error is re-raised unchanged, and an unsupported provider's
error also passes through unchanged. -/
theorem C2_amended_error_classification :
    (∀ (e : JSError) (env : StoryEnv),
       generateStoryBeat samplePrompt (ProviderArg.known AIProvider.GEMINI)
           { env with gemini := Except.error e } =
         Except.error (if geminiAuthTest e then API_KEY_ERROR else e)) ∧
    (∀ (e : JSError) (env : StoryEnv),
       generateStoryBeat samplePrompt (ProviderArg.known AIProvider.OPENAI)
           { env with openai := Except.error e } =
         Except.error (if e.status == some 401 then API_KEY_ERROR else e)) ∧
    (∀ (e : JSError) (env : StoryEnv),
       generateStoryBeat samplePrompt (ProviderArg.known AIProvider.CLAUDE)
           { env with claude := Except.error e } =
         Except.error (if e.status == some 401 then API_KEY_ERROR else e)) := by
  refine ⟨?_, ?_, ?_⟩ <;> intros <;> rfl

/-- C3 (counterexample): when the stripped retry write also fails with
the quota error, the save-sync effect propagates the failure (the retry
stands outside any try/catch) instead of swallowing it. -/
theorem C3_counterexample :
    persistSaves alwaysQuotaWrite [] =
      (2, Except.error DomErr.quotaExceeded) ∧
    (Except.error DomErr.quotaExceeded : Except DomErr Unit) ≠ Except.ok () := by
  refine ⟨rfl, fun h => Except.noConfusion h⟩

/-- C3 (amended): on a quota-exceeded failure of the initial write the
effect strips all image references across all slots and retries exactly
once (two write attempts in total), and the outcome of the effect is the
outcome of that retry — in particular a failing retry propagates to the
caller rather than being swallowed. -/
theorem C3_amended_quota_retry :
    (∀ (write : List SaveSlot → Except DomErr Unit) (updated : List SaveSlot),
       write updated = Except.error DomErr.quotaExceeded →
       persistSaves write updated = (2, write (stripAllImages updated))) ∧
    (∀ (write : List SaveSlot → Except DomErr Unit) (updated : List SaveSlot)
       (e2 : DomErr),
       write updated = Except.error DomErr.quotaExceeded →
       write (stripAllImages updated) = Except.error e2 →
       persistSaves write updated = (2, Except.error e2)) := by
  constructor
  · intro write updated h
    unfold persistSaves
    rw [h]
    simp
  · intro write updated e2 h h2
    unfold persistSaves
    rw [h, h2]
    simp

/-- C3 (witness): the amended retry behaviour at a concrete always-
failing write over the empty slot list. -/
theorem C3_amended_quota_retry_witness :
    persistSaves alwaysQuotaWrite [] = (2, alwaysQuotaWrite (stripAllImages [])) ∧
    persistSaves alwaysQuotaWrite [] = (2, Except.error DomErr.quotaExceeded) := by
  refine ⟨C3_amended_quota_retry.1 alwaysQuotaWrite [] rfl,
          C3_amended_quota_retry.2 alwaysQuotaWrite [] DomErr.quotaExceeded rfl rfl⟩

/-- C4: for every supported provider and tier and all inputs, the
estimated cost is the linear combination of the four counts with the
static table's rates, premium images priced at the tier's (single) image
rate; all-zero inputs cost 0. -/
theorem C4_cost_formula :
    (∀ (it ot im pim : ℕ) (p : AIProvider) (t : ModelType),
       calculateEstimatedCost it ot im pim (ProviderArg.known p) t =
         (it : ℚ) * (providerTierPricing p t).input
           + (ot : ℚ) * (providerTierPricing p t).output
           + (im : ℚ) * (providerTierPricing p t).image
           + (pim : ℚ) * (providerTierPricing p t).image) ∧
    (∀ (p : AIProvider) (t : ModelType),
       calculateEstimatedCost 0 0 0 0 (ProviderArg.known p) t = 0) := by
  constructor
  · intro it ot im pim p t
    cases p <;> cases t <;>
      simp [calculateEstimatedCost, providerTierPricing] <;> ring
  · intro p t
    cases p <;> cases t <;>
      simp [calculateEstimatedCost]

/-- C5: for every prompt, style and quality, `generateImage` with the
Claude provider returns `data = none` with a zeroed usage envelope and
performs zero network calls, as a successful outcome. -/
theorem C5_claude_image_no_network :
    ∀ (prompt style : String) (quality : Quality) (env : ImageEnv),
      generateImage prompt style (ProviderArg.known AIProvider.CLAUDE) quality env =
        (0, Except.ok
          { data := none
            usage := { inputTokens := 0, outputTokens := 0,
                       isPremium := none, provider := AIProvider.CLAUDE } }) := by
  intro prompt style quality env
  rfl

/-- C6 (counterexample): the legacy Gemini-only service's
`getChatResponse` interpolates `gameContext.inventory.join(', ')` with no
coercion, so a context with an absent inventory raises a TypeError (re-
raised unchanged by its error handler) even though the upstream chat
endpoint would have replied successfully. -/
theorem C6_counterexample :
    Legacy.getChatResponse sampleMessage ctxNoInventory
        (Except.ok sampleChatReply) =
      Except.error joinTypeError := by
  rfl

/-- C6 (amended): in the multi-provider service every provider branch
coerces a missing inventory to the empty sequence before joining, so
`getChatResponse` with an absent inventory never raises on that account,
behaves exactly as with an explicitly empty inventory, and renders the
inventory as an empty item list in the interpolated directive; the
legacy Gemini-only service does not coerce and raises a TypeError on an
absent inventory. -/
theorem C6_amended_inventory_coercion :
    (∀ (message g q : String) (provider : ProviderArg) (env : ChatEnv),
       getChatResponse message { genre := g, currentQuest := q, inventory := none }
           provider env =
         getChatResponse message { genre := g, currentQuest := q, inventory := some [] }
           provider env) ∧
    (jsJoin (jsOrList none (some [])) commaSep = Except.ok ("")) ∧
    (∀ (message g q : String) (r : GeminiChatReply) (env : ChatEnv),
       getChatResponse message { genre := g, currentQuest := q, inventory := none }
           (ProviderArg.known AIProvider.GEMINI) { env with gemini := Except.ok r } =
         Except.ok
           { directive := chroniclerDirective indent12 g q ("")
             data := jsDefStr r.text chatApology
             usage := { inputTokens := r.promptTokenCount.getD 0,
                        outputTokens := r.candidatesTokenCount.getD 0,
                        provider := AIProvider.GEMINI } }) ∧
    (∀ (message g q st c : String) (pt ct : ℕ) (env : ChatEnv),
       getChatResponse message { genre := g, currentQuest := q, inventory := none }
           (ProviderArg.known AIProvider.OPENAI)
           { env with openai := (Except.ok
               { ok := true, statusText := st, content := c,
                 prompt_tokens := pt, completion_tokens := ct }) } =
         Except.ok
           { directive := chroniclerDirective indent16 g q ("")
             data := c
             usage := { inputTokens := pt, outputTokens := ct,
                        provider := AIProvider.OPENAI } }) ∧
    (∀ (message g q st tx : String) (it ot : ℕ) (env : ChatEnv),
       getChatResponse message { genre := g, currentQuest := q, inventory := none }
           (ProviderArg.known AIProvider.CLAUDE)
           { env with claude := (Except.ok
               { ok := true, statusText := st, text := tx,
                 input_tokens := it, output_tokens := ot }) } =
         Except.ok
           { directive := chroniclerDirective indent12 g q ("")
             data := tx
             usage := { inputTokens := it, outputTokens := ot,
                        provider := AIProvider.CLAUDE } }) ∧
    (∀ (message g q : String) (env : Except JSError GeminiChatReply),
       Legacy.getChatResponse message
           { genre := g, currentQuest := q, inventory := none } env =
         Except.error joinTypeError) := by
  refine ⟨?_, rfl, ?_, ?_, ?_, ?_⟩
  · intro message g q provider env
    cases provider with
    | known p => cases p <;> rfl
    | other s => rfl
  all_goals (intros; rfl)

/-- C8 (counterexample): a standard-quality OpenAI image request — no
higher-cost tier involved — succeeds with `isPremium = true`,
contradicting the claim that a standard-tier request never yields
`isPremium = true`. -/
theorem C8_counterexample :
    generateImage samplePrompt sampleStyle (ProviderArg.known AIProvider.OPENAI)
        Quality.standard envImageOpenaiOk =
      (1, Except.ok
        { data := some sampleUrl
          usage := { inputTokens := 0, outputTokens := 0,
                     isPremium := some true, provider := AIProvider.OPENAI } }) := by
  rfl

/-- C8 (amended): in the multi-provider service `isPremium` is a fixed
per-provider constant independent of the requested quality — always
false for Gemini, always true for OpenAI (even for a standard-quality
request), and absent for Claude; only in the legacy Gemini-only service
is `isPremium` true exactly when the higher-cost high-resolution mode
was requested. -/
theorem C8_amended_isPremium :
    (∀ (pr sty : String) (q : Quality) (r : GeminiImageReply) (env : ImageEnv),
       generateImage pr sty (ProviderArg.known AIProvider.GEMINI) q
           { env with gemini := Except.ok r } =
         (1, Except.ok
           { data := firstInline r.parts
             usage := { inputTokens := r.promptTokenCount.getD 0,
                        outputTokens := r.candidatesTokenCount.getD 0,
                        isPremium := some false,
                        provider := AIProvider.GEMINI } })) ∧
    (∀ (pr sty st et u : String) (q : Quality) (env : ImageEnv),
       generateImage pr sty (ProviderArg.known AIProvider.OPENAI) q
           { env with openai := (Except.ok
               { ok := true, statusText := st, errorText := et, url := u }) } =
         (1, Except.ok
           { data := some u
             usage := { inputTokens := 0, outputTokens := 0,
                        isPremium := some true,
                        provider := AIProvider.OPENAI } })) ∧
    (∀ (pr sty : String) (q : Quality) (env : ImageEnv),
       generateImage pr sty (ProviderArg.known AIProvider.CLAUDE) q env =
         (0, Except.ok
           { data := none
             usage := { inputTokens := 0, outputTokens := 0,
                        isPremium := none,
                        provider := AIProvider.CLAUDE } })) ∧
    (∀ (pr sty : String) (size : ImageSize) (hr : Bool) (r : GeminiImageReply),
       Legacy.generateImage pr sty size hr (Except.ok r) =
         Except.ok
           { data := firstInline r.parts
             usage := { inputTokens := r.promptTokenCount.getD 0,
                        outputTokens := r.candidatesTokenCount.getD 0,
                        isPremium := some hr } }) := by
  refine ⟨?_, ?_, ?_, ?_⟩ <;> intros <;> rfl

/-- C7: an unknown provider identifier makes `calculateEstimatedCost`
fall back to the Gemini flash (first provider, base tier) rates for any
tier argument, without failing. -/
theorem C7_unknown_provider_fallback :
    ∀ (it ot im pim : ℕ) (s : String) (t : ModelType),
      calculateEstimatedCost it ot im pim (ProviderArg.other s) t =
        (it : ℚ) * PRICING_GEMINI_FLASH.input
          + (ot : ℚ) * PRICING_GEMINI_FLASH.output
          + (im : ℚ) * PRICING_GEMINI_FLASH.image
          + (pim : ℚ) * PRICING_GEMINI_FLASH.image := by
  intro it ot im pim s t
  simp [calculateEstimatedCost]
  ring

/-- C9: the credential store contract: a non-empty secret round-trips
through set/get and makes `hasApiKey` true; an empty secret deletes the
entry (get returns the empty string, `hasApiKey` false); a provider with
no stored entry reads as the empty string; after `clearAllApiKeys` no
supported provider has a key. -/
theorem C9_credential_store_contract :
    (∀ (st : Store) (p : AIProvider) (s : String), s ≠ "" →
       getStoredApiKey (setStoredApiKey st p s) p = s ∧
       hasApiKey (setStoredApiKey st p s) p = true) ∧
    (∀ (st : Store) (p : AIProvider),
       getStoredApiKey (setStoredApiKey st p ("")) p = "" ∧
       hasApiKey (setStoredApiKey st p ("")) p = false) ∧
    (∀ (st : Store) (p : AIProvider),
       localStorageGetItem st (apiKeyStorageKey p) = none →
       getStoredApiKey st p = "") ∧
    (∀ (st : Store) (p : AIProvider),
       hasApiKey (clearAllApiKeys st) p = false) := by
  refine ⟨?_, ?_, ?_, ?_⟩
  · intro st p s hs
    constructor
    · simp [getStoredApiKey, setStoredApiKey, localStorageSetItem,
            localStorageGetItem, jsStrOr, hs]
    · simp [hasApiKey, getStoredApiKey, setStoredApiKey, localStorageSetItem,
            localStorageGetItem, jsStrOr, hs]
      exact Nat.pos_of_ne_zero (fun h => hs (String.ext (List.eq_nil_of_length_eq_zero h)))
  · intro st p
    constructor
    · simp [getStoredApiKey, setStoredApiKey, localStorageRemoveItem,
            localStorageGetItem, jsStrOr]
    · simp [hasApiKey, getStoredApiKey, setStoredApiKey, localStorageRemoveItem,
            localStorageGetItem, jsStrOr]
  · intro st p h
    simp [getStoredApiKey, localStorageGetItem] at h ⊢
    simp [h, jsStrOr]
  · intro st p
    cases p <;> rfl

/-- C9 (witness): the store contract at a concrete secret and the empty
storage. -/
theorem C9_credential_store_contract_witness :
    getStoredApiKey (setStoredApiKey emptyStorage AIProvider.GEMINI sampleSecret)
        AIProvider.GEMINI = sampleSecret ∧
    hasApiKey (setStoredApiKey emptyStorage AIProvider.GEMINI sampleSecret)
        AIProvider.GEMINI = true ∧
    getStoredApiKey emptyStorage AIProvider.OPENAI = "" := by
  refine ⟨(C9_credential_store_contract.1 emptyStorage AIProvider.GEMINI sampleSecret
            (by decide)).1,
          (C9_credential_store_contract.1 emptyStorage AIProvider.GEMINI sampleSecret
            (by decide)).2,
          C9_credential_store_contract.2.2.1 emptyStorage AIProvider.OPENAI rfl⟩

/-- C10: for each of the three capabilities and every supported
provider, a successful facade result's usage envelope carries exactly
the provider the facade was called with. -/
theorem C10_usage_provider_tag :
    (∀ (prompt : String) (p : AIProvider) (env : StoryEnv) (r : StoryResult),
       generateStoryBeat prompt (ProviderArg.known p) env = Except.ok r →
       r.usage.provider = p) ∧
    (∀ (prompt style : String) (p : AIProvider) (q : Quality) (env : ImageEnv)
       (n : ℕ) (r : ImageResult),
       generateImage prompt style (ProviderArg.known p) q env = (n, Except.ok r) →
       r.usage.provider = p) ∧
    (∀ (message : String) (ctx : GameContextJS) (p : AIProvider) (env : ChatEnv)
       (r : ChatOutcome),
       getChatResponse message ctx (ProviderArg.known p) env = Except.ok r →
       r.usage.provider = p) := by
  refine ⟨?_, ?_, ?_⟩
  · intro prompt p env r h
    cases p
    case GEMINI =>
      cases hg : env.gemini with
      | error e => simp [generateStoryBeat, geminiGenerateStory, hg] at h
      | ok g =>
        cases ht : g.text with
        | none =>
          simp [generateStoryBeat, geminiGenerateStory, hg, ht] at h
          subst h
          rfl
        | some t =>
          cases t with
          | error e =>
            simp [generateStoryBeat, geminiGenerateStory, hg, ht] at h
          | ok parsed =>
            simp [generateStoryBeat, geminiGenerateStory, hg, ht] at h
            subst h
            rfl
    case OPENAI =>
      cases hg : env.openai with
      | error e => simp [generateStoryBeat, openaiGenerateStory, hg] at h
      | ok g =>
        cases hok : g.ok with
        | false => simp [generateStoryBeat, openaiGenerateStory, hg, hok] at h
        | true =>
          cases hc : g.content with
          | none => simp [generateStoryBeat, openaiGenerateStory, hg, hok, hc] at h
          | some parsed =>
            simp [generateStoryBeat, openaiGenerateStory, hg, hok, hc] at h
            subst h
            rfl
    case CLAUDE =>
      cases hg : env.claude with
      | error e => simp [generateStoryBeat, claudeGenerateStory, hg] at h
      | ok g =>
        cases hok : g.ok with
        | false => simp [generateStoryBeat, claudeGenerateStory, hg, hok] at h
        | true =>
          cases hc : g.content with
          | none => simp [generateStoryBeat, claudeGenerateStory, hg, hok, hc] at h
          | some parsed =>
            simp [generateStoryBeat, claudeGenerateStory, hg, hok, hc] at h
            subst h
            rfl
  · intro prompt style p q env n r h
    cases p
    case GEMINI =>
      cases hg : env.gemini with
      | error e => simp [generateImage, geminiGenerateImage, hg] at h
      | ok g =>
        simp [generateImage, geminiGenerateImage, hg] at h
        rw [← h.2]
    case OPENAI =>
      cases hg : env.openai with
      | error e => simp [generateImage, openaiGenerateImage, hg] at h
      | ok g =>
        cases hok : g.ok with
        | false => simp [generateImage, openaiGenerateImage, hg, hok] at h
        | true =>
          simp [generateImage, openaiGenerateImage, hg, hok] at h
          rw [← h.2]
    case CLAUDE =>
      simp [generateImage, claudeGenerateImage] at h
      rw [← h.2]
  · intro message ctx p env r h
    cases p
    case GEMINI =>
      cases ci : ctx.inventory with
      | none =>
        cases hg : env.gemini with
        | error e => simp [getChatResponse, ci, hg, jsOrList, jsJoin] at h
        | ok g =>
          simp [getChatResponse, ci, hg, jsOrList, jsJoin] at h
          subst h
          rfl
      | some l =>
        cases hg : env.gemini with
        | error e => simp [getChatResponse, ci, hg, jsOrList, jsJoin] at h
        | ok g =>
          simp [getChatResponse, ci, hg, jsOrList, jsJoin] at h
          subst h
          rfl
    case OPENAI =>
      cases ci : ctx.inventory with
      | none =>
        cases hg : env.openai with
        | error e => simp [getChatResponse, ci, hg, jsOrList, jsJoin] at h
        | ok g =>
          cases hok : g.ok with
          | false => simp [getChatResponse, ci, hg, hok, jsOrList, jsJoin] at h
          | true =>
            simp [getChatResponse, ci, hg, hok, jsOrList, jsJoin] at h
            subst h
            rfl
      | some l =>
        cases hg : env.openai with
        | error e => simp [getChatResponse, ci, hg, jsOrList, jsJoin] at h
        | ok g =>
          cases hok : g.ok with
          | false => simp [getChatResponse, ci, hg, hok, jsOrList, jsJoin] at h
          | true =>
            simp [getChatResponse, ci, hg, hok, jsOrList, jsJoin] at h
            subst h
            rfl
    case CLAUDE =>
      cases ci : ctx.inventory with
      | none =>
        cases hg : env.claude with
        | error e => simp [getChatResponse, ci, hg, jsOrList, jsJoin] at h
        | ok g =>
          cases hok : g.ok with
          | false => simp [getChatResponse, ci, hg, hok, jsOrList, jsJoin] at h
          | true =>
            simp [getChatResponse, ci, hg, hok, jsOrList, jsJoin] at h
            subst h
            rfl
      | some l =>
        cases hg : env.claude with
        | error e => simp [getChatResponse, ci, hg, jsOrList, jsJoin] at h
        | ok g =>
          cases hok : g.ok with
          | false => simp [getChatResponse, ci, hg, hok, jsOrList, jsJoin] at h
          | true =>
            simp [getChatResponse, ci, hg, hok, jsOrList, jsJoin] at h
            subst h
            rfl

/-- C10 (witness): the provider tag at concrete successful calls of all
three capabilities. -/
theorem C10_usage_provider_tag_witness :
    storyResultGeminiNoText.usage.provider = AIProvider.GEMINI ∧
    claudeImageResult.usage.provider = AIProvider.CLAUDE ∧
    chatOutcomeGeminiEmptyReply.usage.provider = AIProvider.GEMINI := by
  refine ⟨C10_usage_provider_tag.1 samplePrompt AIProvider.GEMINI
            envStoryGeminiNoText storyResultGeminiNoText rfl,
          C10_usage_provider_tag.2.1 samplePrompt sampleStyle AIProvider.CLAUDE
            Quality.standard envImageUnused 0 claudeImageResult rfl,
          C10_usage_provider_tag.2.2 sampleMessage ctxEmptyInventory
            AIProvider.GEMINI envChatGeminiEmptyReply chatOutcomeGeminiEmptyReply rfl⟩
